import Mathlib

/-!
Shallow embedding of the build-status resolution and live log tail engine of
`src/index.js` (a Jenkins CLI client).

The pure core is `getProjectStatus` (source lines 139–177), which classifies a
job snapshot into a `BuildStatus`, and the state updates of `watchProject`
(source lines 191–253), the fixed-delay polling loop that tails a build log.

Modelling conventions for the JavaScript source:
* An absent Jenkins build reference (`data.lastCompletedBuild === null`, or a
  missing `number` after `(x || {}).number`) is `Option.none`; two absent
  numbers compare equal under `===` (`undefined === undefined`), which matches
  `Option` equality.
* `a < b` on possibly-undefined JS numbers is false when either side is
  undefined; `optLt` mirrors that.
* `lastId + 1` with `lastId` undefined yields `NaN`, which is falsy at every
  point `build` is consumed (truthiness guards and `||` defaulting), so it is
  modelled as `none`.
* JS `0` is falsy, so truthiness guards on build numbers test `b ≠ 0`.
* `Infinity` (the unknown-ETA sentinel, also produced by `x || Infinity` when
  `x` is `0` or absent) is the `Eta.inf` constructor.
* One poll iteration is treated as instantaneous at a single clock reading
  `now : Nat` (epoch ms); JS `Date` subtraction that could go negative makes
  the `> 3000` guard false, exactly as truncated `Nat` subtraction does.
-/

/-- The status strings produced by the resolver's ternary chains. -/
inductive JsStatus where
  | unknown
  | passing
  | failing
  | canceled
  | running
deriving DecidableEq, Repr

/-- ETA value: an epoch-millisecond number, or the JS `Infinity` sentinel. -/
inductive Eta where
  | ms (t : Nat)
  | inf
deriving DecidableEq, Repr

/-- The fields of the Jenkins job snapshot read by `getProjectStatus`
(source lines 144–169): the five last-build references, the queue flag and
the optional queue ETA estimate. -/
structure JobSnapshot where
  lastCompletedBuild : Option Nat
  lastSuccessfulBuild : Option Nat
  lastBuild : Option Nat
  lastFailedBuild : Option Nat
  lastUnsuccessfulBuild : Option Nat
  inQueue : Bool
  queueItemBuildableStartMilliseconds : Option Nat
deriving DecidableEq, Repr

/-- The record returned by `getProjectStatus` (source lines 167–175). -/
structure BuildStatus where
  running : Bool
  queued : Bool
  current : JsStatus
  status : JsStatus
  last : Option Nat
  build : Option Nat
  eta : Eta
deriving DecidableEq, Repr

/-- JS `<` on possibly-undefined numbers: false when either side is undefined. -/
def optLt : Option Nat → Option Nat → Bool
  | some a, some b => decide (a < b)
  | _, _ => false

/-- The `buildId` ternary chain (source lines 160–161):
`data.inQueue ? runningProject ? lastId : lastId + 1 :
 lastCompletedId < lastId ? lastCompletedId + 1 : null`.
(`lastId + 1` on an undefined `lastId` is `NaN`, falsy everywhere `build`
is used, hence `none`.) -/
def buildIdOf (s : JobSnapshot) (runningProject : Bool) : Option Nat :=
  if s.inQueue then
    if runningProject then s.lastBuild
    else s.lastBuild.map (· + 1)
  else if optLt s.lastCompletedBuild s.lastBuild then
    s.lastCompletedBuild.map (· + 1)
  else none

/-- The `etaTime` ternary (source lines 163–165):
`data.inQueue ? (data.queueItem || {}).buildableStartMilliseconds || Infinity : 0`.
A present-but-zero estimate is falsy and also falls to `Infinity`. -/
def etaOf (s : JobSnapshot) : Eta :=
  if s.inQueue then
    match s.queueItemBuildableStartMilliseconds with
    | some t => if t = 0 then Eta.inf else Eta.ms t
    | none => Eta.inf
  else Eta.ms 0

/-- The pure part of `getProjectStatus` (source lines 139–177): snapshot to
`BuildStatus`. `runningProject` is the `watch`-vs-`build` flag threaded from
the caller. -/
def getProjectStatus (s : JobSnapshot) (runningProject : Bool) : BuildStatus :=
  let lastCompletedId := s.lastCompletedBuild
  let lastSuccessfullId := s.lastSuccessfulBuild
  let lastId := s.lastBuild
  let lastFailedId := s.lastFailedBuild
  let lastCanceled := s.lastUnsuccessfulBuild
  let buildStatus : JsStatus :=
    if lastCompletedId = none then .unknown
    else if lastSuccessfullId = lastCompletedId then .passing
    else if lastFailedId = lastCompletedId then .failing
    else if lastCanceled = lastCompletedId then .canceled
    else .unknown
  let currentStatus : JsStatus :=
    if lastCompletedId = none then .unknown
    else if lastSuccessfullId = lastId then .passing
    else if lastFailedId = lastId then .failing
    else if lastCanceled = lastId then .canceled
    else .running
  { running := s.inQueue || optLt lastCompletedId lastId
    queued := s.inQueue
    current := currentStatus
    status := buildStatus
    last := lastId
    build := buildIdOf s runningProject
    eta := etaOf s }

/-! ## The live tail loop (`watchProject`, source lines 191–253) -/

/-- The build-history update of one poll (source lines 213–215):
`if (data.build && builds.indexOf(data.build) > -1) builds.push(data.build)`.
The push happens only when the build number is truthy AND already present in
`builds` (`indexOf(...) > -1`). -/
def updateBuilds (builds : List Nat) (build : Option Nat) : List Nat :=
  match build with
  | some b => if b ≠ 0 ∧ b ∈ builds then builds ++ [b] else builds
  | none => builds

/-- The final-build substitution (source line 204):
`data.build = data.build || builds[builds.length]`. When `data.build` is
falsy the code reads index `builds.length`, one past the end. -/
def finalizeBuild (build : Option Nat) (builds : List Nat) : Option Nat :=
  match build with
  | some b => if b ≠ 0 then some b else builds[builds.length]?
  | none => builds[builds.length]?

/-- Loop-local log-tail state: `line` (printed line count, source line 193)
and `lastChange` (epoch ms of the last new output, source line 195). -/
structure TailState where
  line : Nat
  lastChange : Nat
deriving DecidableEq, Repr

/-- What the single-line status display shows after the tailing branch of one
iteration (source lines 230–234): the truncation warning, the idle
"waiting for output" indicator, or nothing. -/
inductive TailIndicator where
  | truncated
  | idle
  | nothing
deriving DecidableEq, Repr

/-- The tailing branch of one iteration (source lines 222–236): slice the
fetched log at `line`; when the slice is non-empty print it, advance `line`
and reset `lastChange` to `now`; then show the truncation warning when the
log is exactly 10000 lines, else the idle indicator when more than 3000 ms
have passed since `lastChange`. -/
def tailStep (st : TailState) (log : List String) (now : Nat) :
    TailState × TailIndicator :=
  let output := log.drop st.line
  let st' : TailState :=
    if output.length ≠ 0 then { line := st.line + output.length, lastChange := now }
    else st
  let indicator : TailIndicator :=
    if log.length = 10000 then .truncated
    else if now - st'.lastChange > 3000 then .idle
    else .nothing
  (st', indicator)

/-- Run `tailStep` over successive polls, each a fetched log with the clock
reading of its iteration; collect the displayed indicators. -/
def tailRun (st : TailState) : List (List String × Nat) → List TailIndicator
  | [] => []
  | (log, now) :: rest =>
    let r := tailStep st log now
    r.2 :: tailRun r.1 rest

/-- A fetch against the Jenkins transport: a value, or a transport error. -/
inductive FetchResult (α : Type) where
  | ok (val : α)
  | err
deriving DecidableEq, Repr

/-- The oracle responses one loop iteration can consume: the snapshot fetch,
the (possibly unused) log fetch, and the iteration's clock reading. -/
structure PollInput where
  snap : FetchResult JobSnapshot
  log : FetchResult (List String)
  now : Nat
deriving DecidableEq, Repr

/-- The mutable loop-local variables of `watchProject`
(source lines 193–196): `line`, `count`, `lastChange`, `builds`. -/
structure LoopState where
  line : Nat
  count : Nat
  lastChange : Nat
  builds : List Nat
deriving DecidableEq, Repr

/-- Initial state at loop start (source lines 193–196). -/
def initLoopState : LoopState :=
  { line := 0, count := 0, lastChange := 0, builds := [] }

/-- How the promise returned by `watchProject` settles: resolved with a final
`BuildStatus`, rejected with an error, or never settled. The outer promise
is built with `new Promise(resolve => ...)` (source line 199), so only
`resolve` is in scope for it; the `reject` of source lines 209/237/247
settles the per-iteration inner promise, whose rejection no one consumes,
and the final fetch (source lines 202–206) has no catch — in all error paths
the outer promise stays pending. -/
inductive WatchOutcome where
  | resolved (data : BuildStatus)
  | rejected
  | pendingForever
deriving DecidableEq, Repr

/-- The `loop` of `watchProject` (source lines 200–251), driven by a list of
oracle responses (one per iteration; an exhausted list means the run is not
determined and is reported as still pending). `running = false` is the final
pass: one more snapshot fetch, the `finalizeBuild` substitution, and
`resolve`. Otherwise: fetch the snapshot, bump `count`, update `builds`;
when `builds` holds more than one id skip the branch work; else tail the log
when `running && (runningProject || !queued)`; continue with
`data.running && builds.length < 2` (source line 246). -/
def watchLoop (runningProject : Bool) :
    LoopState → Bool → List PollInput → WatchOutcome
  | _, _, [] => .pendingForever
  | st, false, inp :: _ =>
    match inp.snap with
    | .ok s =>
      let data := getProjectStatus s runningProject
      .resolved { data with build := finalizeBuild data.build st.builds }
    | .err => .pendingForever
  | st, true, inp :: rest =>
    match inp.snap with
    | .err => .pendingForever
    | .ok s =>
      let data := getProjectStatus s runningProject
      let builds' := updateBuilds st.builds data.build
      let st1 : LoopState :=
        { st with count := st.count + 1, builds := builds' }
      let cont := data.running && decide (builds'.length < 2)
      if builds'.length > 1 then
        watchLoop runningProject st1 cont rest
      else if data.running && (runningProject || !data.queued) then
        match inp.log with
        | .err => .pendingForever
        | .ok log =>
          let r := tailStep { line := st1.line, lastChange := st1.lastChange } log inp.now
          watchLoop runningProject
            { st1 with line := r.1.line, lastChange := r.1.lastChange } cont rest
      else
        watchLoop runningProject st1 cont rest

/-! ## Spec-side restatement of the status classification

§4.1 of the specification describes `status` and `current` as an ordered
comparison list ("compare against, in order, `lastSuccessfulBuild`,
`lastFailedBuild`, `lastUnsuccessfulBuild`; first equality wins"). The
following definitions follow that wording (an explicit ordered lookup, as
§9 suggests) and are compared against `getProjectStatus` in C2. -/

/-- First outcome in the ordered candidate list whose build id equals the
target; the fallback when none matches. -/
def specOrderedOutcome (target : Option Nat) :
    List (Option Nat × JsStatus) → JsStatus → JsStatus
  | [], fallback => fallback
  | (c, o) :: rest, fallback =>
    if c = target then o else specOrderedOutcome target rest fallback

/-- Spec wording for `status`: absent `lastCompletedBuild` means `unknown`;
otherwise the ordered comparison against `lastCompletedBuild`, fallback
`unknown`. -/
def specStatus (s : JobSnapshot) : JsStatus :=
  if s.lastCompletedBuild = none then .unknown
  else
    specOrderedOutcome s.lastCompletedBuild
      [(s.lastSuccessfulBuild, .passing), (s.lastFailedBuild, .failing),
       (s.lastUnsuccessfulBuild, .canceled)] .unknown

/-- Spec wording for `current`: the same ordered comparison but against
`lastBuild`, fallback `running`; absent `lastCompletedBuild` means
`unknown`. -/
def specCurrent (s : JobSnapshot) : JsStatus :=
  if s.lastCompletedBuild = none then .unknown
  else
    specOrderedOutcome s.lastBuild
      [(s.lastSuccessfulBuild, .passing), (s.lastFailedBuild, .failing),
       (s.lastUnsuccessfulBuild, .canceled)] .running

/-! ## Claims -/

/-- C1 counterexample: on the snapshot
`{lastCompletedBuild:5, lastSuccessfulBuild:5, lastBuild:5, inQueue:false}`
the resolver does NOT return the claimed record with `build = 5`: since
`inQueue` is false and `lastCompletedBuild < lastBuild` fails (5 < 5), the
`buildId` ternary falls to `null`. -/
theorem c1_counterexample :
    ¬ (getProjectStatus
        { lastCompletedBuild := some 5, lastSuccessfulBuild := some 5,
          lastBuild := some 5, lastFailedBuild := none,
          lastUnsuccessfulBuild := none, inQueue := false,
          queueItemBuildableStartMilliseconds := none } false =
      { running := false, queued := false, current := .passing,
        status := .passing, last := some 5, build := some 5,
        eta := .ms 0 }) := by
  decide

/-- C1 amended: on that snapshot the resolver returns exactly
`{running:false, queued:false, current:passing, status:passing, last:5,
build:null, eta:0}` — as the claim states except that `build` is null. -/
theorem c1_scenario :
    getProjectStatus
      { lastCompletedBuild := some 5, lastSuccessfulBuild := some 5,
        lastBuild := some 5, lastFailedBuild := none,
        lastUnsuccessfulBuild := none, inQueue := false,
        queueItemBuildableStartMilliseconds := none } false =
    { running := false, queued := false, current := .passing,
      status := .passing, last := some 5, build := none, eta := .ms 0 } := by
  decide

/-- C2: for every snapshot, the resolver's `status` and `current` agree with
the spec's ordered-comparison description (`lastSuccessfulBuild`, then
`lastFailedBuild`, then `lastUnsuccessfulBuild`; first equality wins;
fallbacks `unknown` and `running`; both `unknown` when `lastCompletedBuild`
is absent). -/
theorem c2_status_current_ordered_lookup (s : JobSnapshot) (rp : Bool) :
    (getProjectStatus s rp).status = specStatus s ∧
    (getProjectStatus s rp).current = specCurrent s := by
  constructor <;>
    simp [getProjectStatus, specStatus, specCurrent, specOrderedOutcome]

/-- C5: the `build` field follows the source ternary chain: queued plus
freshly triggered (`runningProject = false`) predicts `lastBuild + 1`;
queued plus already-running watch keeps `lastBuild`; not queued with
`lastCompletedBuild < lastBuild` predicts `lastCompletedBuild + 1`;
otherwise `build` is null. -/
theorem c5_build_resolution (s : JobSnapshot) (rp : Bool) :
    (s.inQueue = true → rp = false → ∀ n, s.lastBuild = some n →
      (getProjectStatus s rp).build = some (n + 1)) ∧
    (s.inQueue = true → rp = true →
      (getProjectStatus s rp).build = s.lastBuild) ∧
    (s.inQueue = false → ∀ a b, s.lastCompletedBuild = some a →
      s.lastBuild = some b → a < b →
      (getProjectStatus s rp).build = some (a + 1)) ∧
    (s.inQueue = false → optLt s.lastCompletedBuild s.lastBuild = false →
      (getProjectStatus s rp).build = none) := by
  refine ⟨?_, ?_, ?_, ?_⟩
  · intro hq hrp n hlb
    simp [getProjectStatus, buildIdOf, hq, hrp, hlb]
  · intro hq hrp
    simp [getProjectStatus, buildIdOf, hq, hrp]
  · intro hq a b hc hlb hab
    simp [getProjectStatus, buildIdOf, hq, hc, hlb, optLt, hab]
  · intro hq hlt
    simp [getProjectStatus, buildIdOf, hq, hlt]

/-- C5 witness: `inQueue=true, mustAlreadyBeRunning=false, lastBuild=41`
gives `build = 42`, and `inQueue=false, lastCompletedBuild=41, lastBuild=42`
gives `build = 42`. -/
theorem c5_build_resolution_witness :
    (getProjectStatus
      { lastCompletedBuild := some 41, lastSuccessfulBuild := some 41,
        lastBuild := some 41, lastFailedBuild := none,
        lastUnsuccessfulBuild := none, inQueue := true,
        queueItemBuildableStartMilliseconds := none } false).build = some 42 ∧
    (getProjectStatus
      { lastCompletedBuild := some 41, lastSuccessfulBuild := some 41,
        lastBuild := some 42, lastFailedBuild := none,
        lastUnsuccessfulBuild := none, inQueue := false,
        queueItemBuildableStartMilliseconds := none } false).build = some 42 :=
  ⟨(c5_build_resolution _ false).1 rfl rfl 41 rfl,
   (c5_build_resolution _ false).2.2.1 rfl 41 42 rfl rfl (by decide)⟩

/-- C6 counterexample: a snapshot with
`lastCompletedBuild = lastSuccessfulBuild = lastBuild = 5` but
`inQueue = true` has `running = true` (`running` is
`inQueue || lastCompletedId < lastId`), falsifying the claim's
`running == false` for all such snapshots. -/
theorem c6_counterexample :
    (getProjectStatus
      { lastCompletedBuild := some 5, lastSuccessfulBuild := some 5,
        lastBuild := some 5, lastFailedBuild := none,
        lastUnsuccessfulBuild := none, inQueue := true,
        queueItemBuildableStartMilliseconds := none } false).running = true := by
  decide

/-- C6 amended: for snapshots where `lastCompletedBuild`,
`lastSuccessfulBuild` and `lastBuild` are present and equal AND the job is
not queued, the resolver returns `status = passing`, `current = passing`,
`running = false`. -/
theorem c6_all_equal_passing (s : JobSnapshot) (rp : Bool) (n : Nat)
    (h1 : s.lastCompletedBuild = some n) (h2 : s.lastSuccessfulBuild = some n)
    (h3 : s.lastBuild = some n) (h4 : s.inQueue = false) :
    (getProjectStatus s rp).status = .passing ∧
    (getProjectStatus s rp).current = .passing ∧
    (getProjectStatus s rp).running = false := by
  simp [getProjectStatus, h1, h2, h3, h4, optLt]

/-- C6 witness: the all-5, not-queued snapshot indeed resolves to passing,
passing, not running. -/
theorem c6_all_equal_passing_witness :
    (getProjectStatus
      { lastCompletedBuild := some 5, lastSuccessfulBuild := some 5,
        lastBuild := some 5, lastFailedBuild := none,
        lastUnsuccessfulBuild := none, inQueue := false,
        queueItemBuildableStartMilliseconds := none } false).status = .passing ∧
    (getProjectStatus
      { lastCompletedBuild := some 5, lastSuccessfulBuild := some 5,
        lastBuild := some 5, lastFailedBuild := none,
        lastUnsuccessfulBuild := none, inQueue := false,
        queueItemBuildableStartMilliseconds := none } false).current = .passing ∧
    (getProjectStatus
      { lastCompletedBuild := some 5, lastSuccessfulBuild := some 5,
        lastBuild := some 5, lastFailedBuild := none,
        lastUnsuccessfulBuild := none, inQueue := false,
        queueItemBuildableStartMilliseconds := none } false).running = false :=
  c6_all_equal_passing _ false 5 rfl rfl rfl rfl

/-- C8: in the tailing branch the truncation warning is shown exactly when
the fetched log has exactly 10000 lines — and then instead of the idle
indicator; at any other length (9999, 10001, ...) the truncation branch is
not taken. -/
theorem c8_truncation_boundary (st : TailState) (log : List String)
    (now : Nat) :
    (tailStep st log now).2 = .truncated ↔ log.length = 10000 := by
  by_cases h : log.length = 10000
  · simp [tailStep, h]
  · simp only [tailStep, h, if_false]
    split_ifs <;> simp [h]

/-- C10: whenever the resolver reports `running = true` and `queued = false`
on a snapshot whose `lastCompletedBuild` and `lastBuild` numbers are
present, `build` is non-null and equals `lastCompletedBuild + 1`, so the
tail loop's log fetch for a freshly triggered build is never issued with a
null build number. -/
theorem c10_running_build_nonnull (s : JobSnapshot) (rp : Bool) (a b : Nat)
    (h1 : s.lastCompletedBuild = some a) (_h2 : s.lastBuild = some b)
    (hr : (getProjectStatus s rp).running = true)
    (hq : (getProjectStatus s rp).queued = false) :
    (getProjectStatus s rp).build = some (a + 1) := by
  have hin : s.inQueue = false := by
    simpa [getProjectStatus] using hq
  have hlt : optLt s.lastCompletedBuild s.lastBuild = true := by
    simpa [getProjectStatus, hin] using hr
  rw [h1] at hlt
  simp [getProjectStatus, buildIdOf, hin, h1, hlt]

/-- C10 witness: `lastCompletedBuild=41, lastBuild=42, inQueue=false`
resolves to running, not queued, with `build = 42`. -/
theorem c10_running_build_nonnull_witness :
    (getProjectStatus
      { lastCompletedBuild := some 41, lastSuccessfulBuild := some 41,
        lastBuild := some 42, lastFailedBuild := none,
        lastUnsuccessfulBuild := none, inQueue := false,
        queueItemBuildableStartMilliseconds := none } false).build = some 42 :=
  c10_running_build_nonnull _ false 41 42 rfl rfl (by decide) (by decide)

/-- C3: the claim says each distinct resolved build id is appended to
`observedBuildIds`; the code's guard is inverted
(`builds.indexOf(data.build) > -1` instead of `=== -1`), so a build id is
pushed only when it is ALREADY present. Starting from the empty history no
id is ever appended: a single update leaves `[]` unchanged for every
resolved build, and so does any sequence of updates. -/
theorem c3_observed_builds_never_appended :
    (∀ b : Option Nat, updateBuilds [] b = []) ∧
    (∀ bs : List (Option Nat), bs.foldl updateBuilds [] = []) := by
  have h : ∀ b : Option Nat, updateBuilds [] b = [] := by
    intro b
    cases b <;> simp [updateBuilds]
  refine ⟨h, ?_⟩
  intro bs
  induction bs with
  | nil => rfl
  | cons b rest ih => simp [List.foldl_cons, h b, ih]

/-- C7: the claim says the final pass substitutes the last entry of
`observedBuildIds` when the resolved `build` is absent; the code reads
`builds[builds.length]` — one past the end, always `undefined` — so the
substitution never produces a build number: the final `build` stays absent
for every history, in particular for history `[7]`. -/
theorem c7_final_build_substitution_dead :
    (∀ builds : List Nat, finalizeBuild none builds = none) ∧
    finalizeBuild none [7] = none := by
  have h : ∀ builds : List Nat, finalizeBuild none builds = none := by
    intro builds
    simp [finalizeBuild]
  exact ⟨h, h [7]⟩

/-- C9 counterexample: with one line already printed (`line = 1`,
`lastChange = 100`) and no new output, polls at 4000 ms and 5000 ms both
display the idle indicator — two displays after a single crossing of the
3000 ms threshold, refuting "exactly once per threshold crossing". (The
branch runs on every poll past the threshold; that is what animates the
ellipsis frames.) -/
theorem c9_counterexample :
    tailRun { line := 1, lastChange := 100 }
      [(["a"], 4000), (["a"], 5000)] = [.idle, .idle] := by
  decide

/-- C9 amended: the idle indicator is displayed on EVERY poll at which no
new output has appeared, more than 3000 ms have elapsed since
`lastOutputChangeTime`, and the log is not at the 10000-line cap (the
single status line is rewritten, with the ellipsis frame advancing); a poll
that does produce new output resets `lastOutputChangeTime` to now and shows
no idle indicator, so the threshold re-arms only when output resumes. -/
theorem c9_idle_every_poll (st : TailState) (log : List String) (now : Nat)
    (hlen : log.length ≠ 10000) :
    (log.drop st.line = [] → now - st.lastChange > 3000 →
      (tailStep st log now).2 = .idle) ∧
    (log.drop st.line ≠ [] →
      (tailStep st log now).1.lastChange = now ∧
      (tailStep st log now).2 ≠ .idle) := by
  constructor
  · intro hout hgt
    simp [tailStep, hout, hlen, hgt]
  · intro hout
    have hne : log.length - st.line ≠ 0 := fun h =>
      hout (List.drop_eq_nil_iff.mpr (Nat.sub_eq_zero_iff_le.mp h))
    simp [tailStep, hne, hlen]

/-- C9 witness: at 4000 ms with `lastChange = 100` and no new output the
idle indicator is displayed. -/
theorem c9_idle_every_poll_witness :
    (tailStep { line := 1, lastChange := 100 } ["a"] 4000).2 = .idle :=
  (c9_idle_every_poll { line := 1, lastChange := 100 } ["a"] 4000
    (by decide)).1 (by decide) (by decide)

/-- C4: the claim says a failed snapshot or log fetch rejects the promise
returned by `watch`; in the code the outer promise is constructed with
`new Promise(resolve => ...)` and every `reject` targets a per-iteration
inner promise that nobody consumes (and the final fetch has no catch), so
NO run of the loop ever rejects the outer promise — an erroring fetch
leaves it pending forever, as the concrete one-iteration trace with a
failing snapshot fetch shows. -/
theorem c4_transport_error_never_rejects :
    (∀ (rp : Bool) (inputs : List PollInput) (st : LoopState)
      (running : Bool), watchLoop rp st running inputs ≠ .rejected) ∧
    watchLoop false initLoopState true
      [{ snap := .err, log := .err, now := 0 }] = .pendingForever := by
  have h : ∀ (rp : Bool) (inputs : List PollInput) (st : LoopState)
      (running : Bool), watchLoop rp st running inputs ≠ .rejected := by
    intro rp inputs
    induction inputs with
    | nil => intro st running; simp [watchLoop]
    | cons inp rest ih =>
      intro st running
      cases running <;> cases hs : inp.snap <;>
        simp only [watchLoop, hs] <;> try simp
      split_ifs <;> try exact ih _ _
      cases hl : inp.log <;> simp only [hl] <;> try exact ih _ _
      simp
  exact ⟨h, by decide⟩
